import Mathlib

/-!
The vulndb/webui server: cmd/vulnweb/main.go

Shallow embedding of the request pipeline of `cmd/vulnweb/main.go`.

* Go `string` and `[]byte` hold a byte sequence; the conversions between them
  copy the bytes unchanged, so both are embedded as `String` and the
  conversions are the identity.
* A Go `error` value is embedded as `GoError`, carrying the text returned by
  its `Error()` method; a nil error is `none`.
* Functions of other packages (`vulndb`, `bindata`, `html/template`,
  `strconv`, `path`, `blackfriday`) and the command-line flags are fields of
  `Env`: every theorem holds whatever these functions compute.
* Effects are recorded as a trace: each function returns the list of calls it
  made, in program order, each call with its arguments.
-/

namespace Vulnweb

/-- Go `error` value (non-nil); `text` is what `err.Error()` returns. -/
structure GoError where
  text : String
deriving DecidableEq

/-- The `TemplateObj` struct (main.go lines 43-48). `Vulns` nil is `[]`,
`Vuln` nil is `none`, `Err` nil is `none`. -/
structure TemplateObj (Vuln : Type) where
  Vulns : List Vuln := []
  Vuln : Option Vuln := none
  Title : String := ""
  Err : Option GoError := none
deriving DecidableEq

/-- Calls recorded in the trace of a request. `getVulns` and `renderTemplate`
are functions of main.go (recorded on entry); `httpError` and `ioCopy` are the
two calls made on the response writer `w`; the others are calls into other
packages. -/
inductive Call (Vuln Tmpl : Type) where
  | getVulns
  | LoadFromDir (path : String)
  | LoadFromBin
  | GetById (vulns : List Vuln) (id : Int)
  | FilterByTag (vulns : List Vuln) (tag : String)
  | FilterBySeverity (vulns : List Vuln) (severity : String)
  | Atoi (s : String)
  | renderTemplate (tmplName : String) (obj : TemplateObj Vuln)
  | ParseFiles (t : Tmpl) (filenames : List String)
  | Asset (name : String)
  | Parse (t : Tmpl) (text : String)
  | ExecuteTemplate (t : Tmpl) (name : String) (obj : TemplateObj Vuln)
  | httpError (msg : String) (code : Nat)
  | ioCopy (buf : String)
deriving DecidableEq

/-- Command-line flags (main.go lines 21-24) and the functions of other
packages that main.go calls. `Tmpl` is `*template.Template`. A Go result pair
`(v, err)` is a pair whose second component is `none` for a nil error. -/
structure Env (Vuln Tmpl : Type) where
  vulndbPath : String
  templates : String
  loadTemplates : Bool
  LoadFromDir : String → List Vuln × Option GoError
  LoadFromBin : List Vuln × Option GoError
  GetById : List Vuln → Int → Option Vuln
  FilterByTag : List Vuln → String → List Vuln
  FilterBySeverity : List Vuln → String → List Vuln
  Atoi : String → Int × Option GoError
  pathJoin : String → String → String
  New : String → Tmpl
  ParseFiles : Tmpl → List String → Tmpl × Option GoError
  Asset : String → String × Option GoError
  Parse : Tmpl → String → Tmpl × Option GoError
  ExecuteTemplate : Tmpl → String → TemplateObj Vuln → String × Option GoError
  MarkdownCommon : String → String

/-- Value of interface type `fmt.Stringer`: `String` is its method. -/
structure Stringer where
  String : String

/-- The `http.StatusInternalServerError` constant. -/
def StatusInternalServerError : Nat := 500

/-- The `funcMap["severity"]` function (main.go lines 27-37). -/
def severity (value : String) : String :=
  if value = "high" then "danger"
  else if value = "medium" then "warning"
  else if value = "low" then "info"
  else "default"

section
variable {Vuln Tmpl : Type}

/-- The `funcMap["markdown"]` function (main.go lines 38-40): the HTML and the
error it returns. -/
def markdown (env : Env Vuln Tmpl) (value : Stringer) : String × Option GoError :=
  (env.MarkdownCommon value.String, none)

/-- The `tPath` function (main.go lines 50-52). -/
def tPath (env : Env Vuln Tmpl) (name : String) : String :=
  env.pathJoin env.templates (name ++ ".html")

/-- The `getVulns` function (main.go lines 54-59): its result pair and its trace. -/
def getVulns (env : Env Vuln Tmpl) : (List Vuln × Option GoError) × List (Call Vuln Tmpl) :=
  if env.vulndbPath ≠ "" then
    (env.LoadFromDir env.vulndbPath, [Call.getVulns, Call.LoadFromDir env.vulndbPath])
  else
    (env.LoadFromBin, [Call.getVulns, Call.LoadFromBin])

/-- Template resolution inside `renderTemplate` (main.go lines 62-78): the
values of `t` and `err` at line 79, and the trace. -/
def resolveTemplate (env : Env Vuln Tmpl) (tmplName : String) :
    (Tmpl × Option GoError) × List (Call Vuln Tmpl) :=
  let t := env.New tmplName
  if env.loadTemplates then
    (env.ParseFiles t [tPath env tmplName, tPath env "base"],
      [Call.ParseFiles t [tPath env tmplName, tPath env "base"]])
  else
    let a := env.Asset (tPath env tmplName)
    match a.2 with
    | some e => ((t, some e), [Call.Asset (tPath env tmplName)])
    | none =>
      let p := env.Parse t a.1
      match p.2 with
      | some e => ((p.1, some e), [Call.Asset (tPath env tmplName), Call.Parse t a.1])
      | none =>
        let b := env.Asset (tPath env "base")
        match b.2 with
        | some e =>
          ((p.1, some e),
            [Call.Asset (tPath env tmplName), Call.Parse t a.1, Call.Asset (tPath env "base")])
        | none =>
          (env.Parse p.1 b.1,
            [Call.Asset (tPath env tmplName), Call.Parse t a.1, Call.Asset (tPath env "base"),
              Call.Parse p.1 b.1])

/-- The `renderTemplate` function (main.go lines 61-91): its trace. -/
def renderTemplate (env : Env Vuln Tmpl) (tmplName : String) (obj : TemplateObj Vuln) :
    List (Call Vuln Tmpl) :=
  let r := resolveTemplate env tmplName
  match r.1.2 with
  | some e =>
    Call.renderTemplate tmplName obj :: (r.2 ++ [Call.httpError e.text StatusInternalServerError])
  | none =>
    let x := env.ExecuteTemplate r.1.1 "base" obj
    match x.2 with
    | some e =>
      Call.renderTemplate tmplName obj ::
        (r.2 ++ [Call.ExecuteTemplate r.1.1 "base" obj,
          Call.httpError e.text StatusInternalServerError])
    | none =>
      Call.renderTemplate tmplName obj ::
        (r.2 ++ [Call.ExecuteTemplate r.1.1 "base" obj, Call.ioCopy x.1])

/-- The `IndexHandler` function (main.go lines 93-96): its trace. -/
def IndexHandler (env : Env Vuln Tmpl) : List (Call Vuln Tmpl) :=
  let g := getVulns env
  g.2 ++ renderTemplate env "vulns" { Err := g.1.2, Vulns := g.1.1 }

/-- The `VulnHandler` function (main.go lines 98-107): its trace; `idStr` is
`p.ByName("id")`. -/
def VulnHandler (env : Env Vuln Tmpl) (idStr : String) : List (Call Vuln Tmpl) :=
  let c := env.Atoi idStr
  match c.2 with
  | some err => Call.Atoi idStr :: renderTemplate env "vuln" { Err := some err }
  | none =>
    let g := getVulns env
    Call.Atoi idStr :: (g.2 ++ (Call.GetById g.1.1 c.1 ::
      renderTemplate env "vuln" { Err := g.1.2, Vuln := env.GetById g.1.1 c.1 }))

/-- The `VulnTagHandler` function (main.go lines 109-117): its trace; `tag` is
`p.ByName("tag")`. -/
def VulnTagHandler (env : Env Vuln Tmpl) (tag : String) : List (Call Vuln Tmpl) :=
  let g := getVulns env
  g.2 ++ (Call.FilterByTag g.1.1 tag ::
    renderTemplate env "vulns"
      { Err := g.1.2
        Vulns := env.FilterByTag g.1.1 tag
        Title := "Filtered by tag '" ++ tag ++ "'" })

/-- The `VulnSeverityHandler` function (main.go lines 119-127): its trace;
`severity` is `p.ByName("severity")`. -/
def VulnSeverityHandler (env : Env Vuln Tmpl) (severity : String) : List (Call Vuln Tmpl) :=
  let g := getVulns env
  g.2 ++ (Call.FilterBySeverity g.1.1 severity ::
    renderTemplate env "vulns"
      { Err := g.1.2
        Vulns := env.FilterBySeverity g.1.1 severity
        Title := "Filtered by severity '" ++ severity ++ "'" })

end

/-! Section: Observations on traces -/

section
variable {Vuln Tmpl : Type}

/-- Entry into `getVulns`. -/
def Call.isGetVulns : Call Vuln Tmpl → Bool
  | .getVulns => true
  | _ => false

/-- Call of one of the two store loaders. -/
def Call.isLoader : Call Vuln Tmpl → Bool
  | .LoadFromDir _ => true
  | .LoadFromBin => true
  | _ => false

/-- Call of one of the three queries on a collection. -/
def Call.isQuery : Call Vuln Tmpl → Bool
  | .GetById _ _ => true
  | .FilterByTag _ _ => true
  | .FilterBySeverity _ _ => true
  | _ => false

/-- Call that resolves a template: a filesystem parse, a bundle read or a parse
of bundle data. -/
def Call.isResolve : Call Vuln Tmpl → Bool
  | .ParseFiles _ _ => true
  | .Asset _ => true
  | .Parse _ _ => true
  | _ => false

/-- Call of `ExecuteTemplate`. -/
def Call.isExecute : Call Vuln Tmpl → Bool
  | .ExecuteTemplate _ _ _ => true
  | _ => false

/-- Call on the response writer `w`. -/
def Call.isWriter : Call Vuln Tmpl → Bool
  | .httpError _ _ => true
  | .ioCopy _ => true
  | _ => false

/-- What a request did to the response writer, in order. -/
def response (tr : List (Call Vuln Tmpl)) : List (Call Vuln Tmpl) :=
  tr.filter Call.isWriter

/-- The bundle keys requested through `bindata.Asset`, in order. -/
def assetKeys : List (Call Vuln Tmpl) → List String
  | [] => []
  | .Asset k :: tr => k :: assetKeys tr
  | _ :: tr => assetKeys tr

/-- The file names handed to `ParseFiles` for reading, in order. -/
def filesRead : List (Call Vuln Tmpl) → List String
  | [] => []
  | .ParseFiles _ fs :: tr => fs ++ filesRead tr
  | _ :: tr => filesRead tr

end

/-! ## A sample instance of the environment

Used to evaluate the handlers on concrete requests. -/

/-- Sample vulnerability record: identifier, title, severity label, tags. -/
structure SampleVuln where
  Id : Int
  Title : String
  Severity : String
  Tags : List String
deriving DecidableEq

/-- Sample template value: its name and the texts parsed into it. -/
structure SampleTmpl where
  name : String
  texts : List String
deriving DecidableEq

/-- Sample collection of two records. -/
def sampleVulns : List SampleVuln :=
  [⟨1, "A", "high", ["x"]⟩, ⟨2, "B", "low", ["y"]⟩]

/-- Value of a string of decimal digits, `none` if a character is not a digit. -/
def sampleDigits : List Char → Nat → Option Nat
  | [], acc => some acc
  | c :: cs, acc =>
    if c.isDigit then sampleDigits cs (acc * 10 + (c.toNat - 48)) else none

/-- Sample integer parser: optional sign, decimal digits, 64-bit range. -/
def sampleAtoi (s : String) : Int × Option GoError :=
  let bad : Int × Option GoError :=
    (0, some ⟨"strconv.Atoi: parsing \"" ++ s ++ "\": invalid syntax"⟩)
  let range (v : Int) : Int × Option GoError :=
    if -(2 : Int) ^ 63 ≤ v ∧ v < (2 : Int) ^ 63 then (v, none)
    else (0, some ⟨"strconv.Atoi: parsing \"" ++ s ++ "\": value out of range"⟩)
  match s.toList with
  | [] => bad
  | ['-'] => bad
  | ['+'] => bad
  | '-' :: cs =>
    match sampleDigits cs 0 with
    | some n => range (-(n : Int))
    | none => bad
  | '+' :: cs =>
    match sampleDigits cs 0 with
    | some n => range n
    | none => bad
  | cs =>
    match sampleDigits cs 0 with
    | some n => range n
    | none => bad

/-- Sample template sources, keyed by path. -/
def sampleAssets : List (String × String) :=
  [("templates/vulns.html", "<ul>vulns</ul>"), ("templates/vuln.html", "<p>vuln</p>"),
    ("templates/base.html", "<html>base</html>")]

/-- Sample read of one template source. -/
def sampleAsset (k : String) : String × Option GoError :=
  match sampleAssets.lookup k with
  | some d => (d, none)
  | none => ("", some ⟨"Asset " ++ k ++ " not found"⟩)

/-- Sample `ParseFiles`: reads the files in order, stops at the first one missing. -/
def sampleParseFiles (t : SampleTmpl) : List String → SampleTmpl × Option GoError
  | [] => (t, none)
  | f :: fs =>
    match sampleAssets.lookup f with
    | some d => sampleParseFiles ⟨t.name, t.texts ++ [d]⟩ fs
    | none => (t, some ⟨"open " ++ f ++ ": no such file or directory"⟩)

/-- Sample environment: embedded store and embedded templates, every call succeeds. -/
def sampleEnv : Env SampleVuln SampleTmpl where
  vulndbPath := ""
  templates := "templates"
  loadTemplates := false
  LoadFromDir := fun p =>
    if p = "db" then (sampleVulns, none)
    else ([], some ⟨"open " ++ p ++ ": no such file or directory"⟩)
  LoadFromBin := (sampleVulns, none)
  GetById := fun vs id => vs.find? (fun v => decide (v.Id = id))
  FilterByTag := fun vs t => vs.filter (fun v => decide (t ∈ v.Tags))
  FilterBySeverity := fun vs s => vs.filter (fun v => decide (v.Severity = s))
  Atoi := sampleAtoi
  pathJoin := fun a b => a ++ "/" ++ b
  New := fun n => ⟨n, []⟩
  ParseFiles := sampleParseFiles
  Asset := sampleAsset
  Parse := fun t s => (⟨t.name, t.texts ++ [s]⟩, none)
  ExecuteTemplate := fun t _ _ => (String.join t.texts, none)
  MarkdownCommon := fun s => "<p>" ++ s ++ "</p>\n"

/-- Sample environment with a configured data directory. -/
def sampleDirEnv : Env SampleVuln SampleTmpl :=
  { sampleEnv with vulndbPath := "db" }

/-- Sample environment whose store load fails. -/
def sampleFailEnv : Env SampleVuln SampleTmpl :=
  { sampleEnv with LoadFromBin := ([], some ⟨"vulndb: corrupted asset"⟩) }

/-- Sample environment whose template execution fails after some output. -/
def sampleExecFailEnv : Env SampleVuln SampleTmpl :=
  { sampleEnv with
    ExecuteTemplate := fun _ _ _ => ("<html><ul>", some ⟨"template: base: execution failed"⟩) }

/-- Sample environment reading templates from the filesystem. -/
def sampleFsEnv : Env SampleVuln SampleTmpl :=
  { sampleEnv with loadTemplates := true }

/-- Sample environment whose bundle lacks every asset. -/
def sampleNoAssetEnv : Env SampleVuln SampleTmpl :=
  { sampleEnv with Asset := fun k => ("", some ⟨"Asset " ++ k ++ " not found"⟩) }

/-! Section: Severity classifier -/

/-- C1: the severity classifier returns "danger" for "high", "warning" for
"medium", "info" for "low", and "default" for every other string, the empty
string and the case variant "High" included. -/
theorem severity_total :
    severity "high" = "danger" ∧ severity "medium" = "warning" ∧ severity "low" = "info" ∧
    severity "" = "default" ∧ severity "High" = "default" ∧
    ∀ s : String, s ≠ "high" → s ≠ "medium" → s ≠ "low" → severity s = "default" := by
  refine ⟨by decide, by decide, by decide, by decide, by decide, ?_⟩
  intro s h1 h2 h3
  simp [severity, h1, h2, h3]

/-- Witness of C1 at the unknown label "critical". -/
theorem severity_total_witness : severity "critical" = "default" :=
  severity_total.2.2.2.2.2 "critical" (by decide) (by decide) (by decide)

/-! Section: Shape of the traces -/

section
variable {Vuln Tmpl : Type}

/-- Every call made while resolving a template is a resolution call. -/
theorem resolveTemplate_calls (env : Env Vuln Tmpl) (n : String) :
    ∀ c ∈ (resolveTemplate env n).2, c.isResolve = true := by
  intro c hc
  unfold resolveTemplate at hc
  simp only at hc
  split at hc
  · simp at hc; subst hc; rfl
  · split at hc
    · simp at hc; subst hc; rfl
    · split at hc
      · simp at hc; rcases hc with h | h <;> subst h <;> rfl
      · split at hc
        · simp at hc; rcases hc with h | h | h <;> subst h <;> rfl
        · simp at hc; rcases hc with h | h | h | h <;> subst h <;> rfl

/-- The trace of `renderTemplate`: its entry, the resolution calls, then a tail
of at most one execution followed by exactly one call on the writer. -/
theorem renderTemplate_shape (env : Env Vuln Tmpl) (n : String) (obj : TemplateObj Vuln) :
    ∃ tail, renderTemplate env n obj
        = Call.renderTemplate n obj :: ((resolveTemplate env n).2 ++ tail) ∧
      ∀ c ∈ tail, c.isExecute = true ∨ c.isWriter = true := by
  unfold renderTemplate
  simp only
  split
  · exact ⟨_, rfl, by intro c hc; simp at hc; subst hc; exact Or.inr rfl⟩
  · split
    · exact ⟨_, rfl, by
        intro c hc; simp at hc; rcases hc with h | h <;> subst h
        · exact Or.inl rfl
        · exact Or.inr rfl⟩
    · exact ⟨_, rfl, by
        intro c hc; simp at hc; rcases hc with h | h <;> subst h
        · exact Or.inl rfl
        · exact Or.inr rfl⟩

/-- A call in the trace of `renderTemplate` is its entry, a resolution call, an
execution or a call on the writer. -/
theorem renderTemplate_calls (env : Env Vuln Tmpl) (n : String) (obj : TemplateObj Vuln) :
    ∀ c ∈ renderTemplate env n obj,
      c = Call.renderTemplate n obj ∨ c.isResolve = true ∨ c.isExecute = true ∨
        c.isWriter = true := by
  intro c hc
  obtain ⟨tail, heq, htail⟩ := renderTemplate_shape env n obj
  rw [heq] at hc
  simp only [List.mem_cons, List.mem_append] at hc
  rcases hc with h | h | h
  · exact Or.inl h
  · exact Or.inr (Or.inl (resolveTemplate_calls env n c h))
  · exact Or.inr (Or.inr (htail c h))

/-- The trace of `renderTemplate` touches neither the store nor a query. -/
theorem renderTemplate_no_store (env : Env Vuln Tmpl) (n : String) (obj : TemplateObj Vuln) :
    ∀ c ∈ renderTemplate env n obj,
      c.isGetVulns = false ∧ c.isLoader = false ∧ c.isQuery = false := by
  intro c hc
  rcases renderTemplate_calls env n obj c hc with h | h | h | h
  · subst h; exact ⟨rfl, rfl, rfl⟩
  all_goals cases c <;> simp_all [Call.isResolve, Call.isExecute, Call.isWriter,
    Call.isGetVulns, Call.isLoader, Call.isQuery]

/-- The only entry into `renderTemplate` in its own trace is the call itself. -/
theorem renderTemplate_entry (env : Env Vuln Tmpl) (n : String) (obj : TemplateObj Vuln)
    (m : String) (o : TemplateObj Vuln) :
    Call.renderTemplate m o ∈ renderTemplate env n obj ↔ m = n ∧ o = obj := by
  constructor
  · intro hc
    rcases renderTemplate_calls env n obj _ hc with h | h | h | h
    · simpa using h
    all_goals simp [Call.isResolve, Call.isExecute, Call.isWriter] at h
  · rintro ⟨rfl, rfl⟩
    obtain ⟨tail, heq, -⟩ := renderTemplate_shape env m o
    rw [heq]; exact List.mem_cons_self _ _

/-- The trace of `getVulns` is its entry followed by one loader call. -/
theorem getVulns_trace (env : Env Vuln Tmpl) :
    (getVulns env).2 = [Call.getVulns, Call.LoadFromDir env.vulndbPath] ∨
      (getVulns env).2 = [Call.getVulns, Call.LoadFromBin] := by
  unfold getVulns
  split
  · exact Or.inl rfl
  · exact Or.inr rfl

end

/-! Section: Store resolver -/

section
variable {Vuln Tmpl : Type}

/-- C2: `getVulns` consults exactly one source per call. With a non-empty data
path its result is that of the directory loader on that path and the embedded
loader is not called; with an empty path its result is that of the embedded
loader and the directory loader is not called. -/
theorem getVulns_one_source (env : Env Vuln Tmpl) :
    (env.vulndbPath ≠ "" →
      (getVulns env).1 = env.LoadFromDir env.vulndbPath ∧
      (getVulns env).2 = [Call.getVulns, Call.LoadFromDir env.vulndbPath] ∧
      Call.LoadFromBin ∉ (getVulns env).2) ∧
    (env.vulndbPath = "" →
      (getVulns env).1 = env.LoadFromBin ∧
      (getVulns env).2 = [Call.getVulns, Call.LoadFromBin] ∧
      ∀ p, Call.LoadFromDir p ∉ (getVulns env).2) := by
  constructor
  · intro h
    simp [getVulns, h]
  · intro h
    simp [getVulns, h]

/-- Witness of C2: the sample environment with data path "db", and the one
with an empty data path. -/
theorem getVulns_one_source_witness :
    (getVulns sampleDirEnv).1 = (sampleVulns, none) ∧
    (getVulns sampleDirEnv).2 = [Call.getVulns, Call.LoadFromDir "db"] ∧
    (getVulns sampleEnv).1 = (sampleVulns, none) ∧
    (getVulns sampleEnv).2 = [Call.getVulns, Call.LoadFromBin] :=
  ⟨((getVulns_one_source sampleDirEnv).1 (by decide)).1,
    ((getVulns_one_source sampleDirEnv).1 (by decide)).2.1,
    ((getVulns_one_source sampleEnv).2 rfl).1,
    ((getVulns_one_source sampleEnv).2 rfl).2.1⟩

end

/-! Section: Detail route -/

section
variable {Vuln Tmpl : Type}

/-- C3: on the detail route, when the id segment does not parse, the handler
renders template "vuln" with a view object whose Err is the parse error and
whose Vuln, Vulns and Title are empty, and neither the store load nor any query
is called; when the id segment parses, the store is loaded and GetById is called
with the parsed integer (and with no other). -/
theorem VulnHandler_parse (env : Env Vuln Tmpl) (idStr : String) :
    (∀ e, (env.Atoi idStr).2 = some e →
      VulnHandler env idStr = Call.Atoi idStr ::
        renderTemplate env "vuln" { Vulns := [], Vuln := none, Title := "", Err := some e } ∧
      (∀ n o, Call.renderTemplate n o ∈ VulnHandler env idStr ↔
        n = "vuln" ∧ o = { Vulns := [], Vuln := none, Title := "", Err := some e }) ∧
      (∀ c ∈ VulnHandler env idStr,
        c.isGetVulns = false ∧ c.isLoader = false ∧ c.isQuery = false)) ∧
    ((env.Atoi idStr).2 = none →
      Call.getVulns ∈ VulnHandler env idStr ∧
      Call.GetById (getVulns env).1.1 (env.Atoi idStr).1 ∈ VulnHandler env idStr ∧
      ∀ v i, Call.GetById v i ∈ VulnHandler env idStr → i = (env.Atoi idStr).1) := by
  constructor
  · intro e he
    have heq : VulnHandler env idStr = Call.Atoi idStr ::
        renderTemplate env "vuln" { Vulns := [], Vuln := none, Title := "", Err := some e } := by
      simp [VulnHandler, he]
    refine ⟨heq, ?_, ?_⟩
    · intro n o
      rw [heq]
      simp [renderTemplate_entry]
    · intro c hc
      rw [heq] at hc
      rcases List.mem_cons.1 hc with h | h
      · subst h; exact ⟨rfl, rfl, rfl⟩
      · exact renderTemplate_no_store env _ _ c h
  · intro hn
    have heq : VulnHandler env idStr = Call.Atoi idStr :: ((getVulns env).2 ++
        (Call.GetById (getVulns env).1.1 (env.Atoi idStr).1 ::
          renderTemplate env "vuln"
            { Err := (getVulns env).1.2
              Vuln := env.GetById (getVulns env).1.1 (env.Atoi idStr).1 })) := by
      simp [VulnHandler, hn]
    refine ⟨?_, ?_, ?_⟩
    · rw [heq]
      rcases getVulns_trace env with h | h <;> simp [h]
    · rw [heq]; simp
    · intro v i hc
      rw [heq] at hc
      simp only [List.mem_cons, List.mem_append] at hc
      rcases hc with h | h | h | h
      · cases h
      · rcases getVulns_trace env with h2 | h2 <;> rw [h2] at h <;> simp at h
      · cases h; rfl
      · have := (renderTemplate_no_store env _ _ _ h).2.2
        simp [Call.isQuery] at this

/-- Witness of C3: the id segments "abc" (no integer) and "2" in the sample
environment. -/
theorem VulnHandler_parse_witness :
    VulnHandler sampleEnv "abc" = Call.Atoi "abc" ::
      renderTemplate sampleEnv "vuln"
        { Vulns := [], Vuln := none, Title := "",
          Err := some ⟨"strconv.Atoi: parsing \"abc\": invalid syntax"⟩ } ∧
    Call.GetById sampleVulns 2 ∈ VulnHandler sampleEnv "2" :=
  ⟨((VulnHandler_parse sampleEnv "abc").1 _ rfl).1,
    ((VulnHandler_parse sampleEnv "2").2 rfl).2.1⟩

end

/-! Section: Render pipeline -/

section
variable {Vuln Tmpl : Type}

/-- The response of `renderTemplate` is the writer call that ends its trace. -/
theorem renderTemplate_response (env : Env Vuln Tmpl) (n : String) (obj : TemplateObj Vuln) :
    response (renderTemplate env n obj) =
      match (resolveTemplate env n).1.2 with
      | some e => [Call.httpError e.text StatusInternalServerError]
      | none =>
        match (env.ExecuteTemplate (resolveTemplate env n).1.1 "base" obj).2 with
        | some e => [Call.httpError e.text StatusInternalServerError]
        | none => [Call.ioCopy (env.ExecuteTemplate (resolveTemplate env n).1.1 "base" obj).1] := by
  have hres : List.filter Call.isWriter (resolveTemplate env n).2 = [] := by
    rw [List.filter_eq_nil_iff]
    intro c hc
    have := resolveTemplate_calls env n c hc
    cases c <;> simp_all [Call.isResolve, Call.isWriter]
  unfold renderTemplate response
  simp only
  split
  · simp [List.filter_cons, List.filter_append, hres, Call.isWriter]
  · split <;> simp [List.filter_cons, List.filter_append, hres, Call.isWriter]

/-- C4: `renderTemplate` never surfaces partial output. Once the template is
resolved, if executing "base" fails, whatever was buffered, the response is
only the error report (status 500 with the error text) and the buffer is never
copied to it; if execution succeeds, the response is exactly the copy of the
whole buffer, with no error report. -/
theorem renderTemplate_buffered (env : Env Vuln Tmpl) (n : String) (obj : TemplateObj Vuln)
    (hres : (resolveTemplate env n).1.2 = none) :
    (∀ e, (env.ExecuteTemplate (resolveTemplate env n).1.1 "base" obj).2 = some e →
      response (renderTemplate env n obj) = [Call.httpError e.text 500] ∧
      ∀ b, Call.ioCopy b ∉ renderTemplate env n obj) ∧
    ((env.ExecuteTemplate (resolveTemplate env n).1.1 "base" obj).2 = none →
      response (renderTemplate env n obj) =
        [Call.ioCopy (env.ExecuteTemplate (resolveTemplate env n).1.1 "base" obj).1] ∧
      ∀ m k, Call.httpError m k ∉ renderTemplate env n obj) := by
  have hmem : ∀ c : Call Vuln Tmpl, c.isWriter = true →
      c ∈ renderTemplate env n obj → c ∈ response (renderTemplate env n obj) := by
    intro c hw hc
    exact List.mem_filter.2 ⟨hc, hw⟩
  constructor
  · intro e he
    have hr : response (renderTemplate env n obj) = [Call.httpError e.text 500] := by
      rw [renderTemplate_response]; simp [hres, he, StatusInternalServerError]
    refine ⟨hr, ?_⟩
    intro b hb
    have := hmem (Call.ioCopy b) rfl hb
    rw [hr] at this
    simp at this
  · intro he
    have hr : response (renderTemplate env n obj) =
        [Call.ioCopy (env.ExecuteTemplate (resolveTemplate env n).1.1 "base" obj).1] := by
      rw [renderTemplate_response]; simp [hres, he]
    refine ⟨hr, ?_⟩
    intro m k hb
    have := hmem (Call.httpError m k) rfl hb
    rw [hr] at this
    simp at this

/-- Witness of C4: the index page in the sample environment whose execution
fails after the output "<html><ul>", and in the one where it succeeds. -/
theorem renderTemplate_buffered_witness :
    response (renderTemplate sampleExecFailEnv "vulns" { Vulns := sampleVulns }) =
      [Call.httpError "template: base: execution failed" 500] ∧
    response (renderTemplate sampleEnv "vulns" { Vulns := sampleVulns }) =
      [Call.ioCopy "<ul>vulns</ul><html>base</html>"] :=
  ⟨((renderTemplate_buffered sampleExecFailEnv "vulns" { Vulns := sampleVulns } rfl).1
      ⟨"template: base: execution failed"⟩ rfl).1,
    ((renderTemplate_buffered sampleEnv "vulns" { Vulns := sampleVulns } rfl).2 rfl).1⟩

end

/-! Section: Store failure in the handlers -/

section
variable {Vuln Tmpl : Type}

/-- Resolution always makes at least one call, and every call it makes is in
the trace of `renderTemplate`; when it succeeds, "base" is executed. -/
theorem renderTemplate_resolves (env : Env Vuln Tmpl) (n : String) (obj : TemplateObj Vuln) :
    (∃ c ∈ renderTemplate env n obj, c.isResolve = true) ∧
    ((resolveTemplate env n).1.2 = none →
      Call.ExecuteTemplate (resolveTemplate env n).1.1 "base" obj ∈ renderTemplate env n obj) := by
  constructor
  · obtain ⟨tail, heq, -⟩ := renderTemplate_shape env n obj
    have hne : ∃ c, c ∈ (resolveTemplate env n).2 := by
      unfold resolveTemplate
      simp only
      split
      · exact ⟨_, List.mem_cons_self _ _⟩
      · split
        · exact ⟨_, List.mem_cons_self _ _⟩
        · split
          · exact ⟨_, List.mem_cons_self _ _⟩
          · split <;> exact ⟨_, List.mem_cons_self _ _⟩
    obtain ⟨c, hc⟩ := hne
    refine ⟨c, ?_, resolveTemplate_calls env n c hc⟩
    rw [heq]
    simp [hc]
  · intro h
    unfold renderTemplate
    simp only [h]
    split <;> simp

/-- Counterexample to C5: in the sample environment whose store load fails, the
tag route still queries the collection, resolves the template and executes it. -/
theorem store_failure_counterexample :
    (getVulns sampleFailEnv).1.2 = some ⟨"vulndb: corrupted asset"⟩ ∧
    VulnTagHandler sampleFailEnv "y" =
      [Call.getVulns, Call.LoadFromBin, Call.FilterByTag [] "y",
        Call.renderTemplate "vulns"
          { Vulns := [], Vuln := none, Title := "Filtered by tag 'y'",
            Err := some ⟨"vulndb: corrupted asset"⟩ },
        Call.Asset "templates/vulns.html",
        Call.Parse ⟨"vulns", []⟩ "<ul>vulns</ul>",
        Call.Asset "templates/base.html",
        Call.Parse ⟨"vulns", ["<ul>vulns</ul>"]⟩ "<html>base</html>",
        Call.ExecuteTemplate ⟨"vulns", ["<ul>vulns</ul>", "<html>base</html>"]⟩ "base"
          { Vulns := [], Vuln := none, Title := "Filtered by tag 'y'",
            Err := some ⟨"vulndb: corrupted asset"⟩ },
        Call.ioCopy "<ul>vulns</ul><html>base</html>"] ∧
    ¬ (∀ c ∈ VulnTagHandler sampleFailEnv "y",
        c.isQuery = false ∧ c.isResolve = false ∧ c.isExecute = false) := by
  have htr : VulnTagHandler sampleFailEnv "y" =
      [Call.getVulns, Call.LoadFromBin, Call.FilterByTag [] "y",
        Call.renderTemplate "vulns"
          { Vulns := [], Vuln := none, Title := "Filtered by tag 'y'",
            Err := some ⟨"vulndb: corrupted asset"⟩ },
        Call.Asset "templates/vulns.html",
        Call.Parse ⟨"vulns", []⟩ "<ul>vulns</ul>",
        Call.Asset "templates/base.html",
        Call.Parse ⟨"vulns", ["<ul>vulns</ul>"]⟩ "<html>base</html>",
        Call.ExecuteTemplate ⟨"vulns", ["<ul>vulns</ul>", "<html>base</html>"]⟩ "base"
          { Vulns := [], Vuln := none, Title := "Filtered by tag 'y'",
            Err := some ⟨"vulndb: corrupted asset"⟩ },
        Call.ioCopy "<ul>vulns</ul><html>base</html>"] := by rfl
  refine ⟨rfl, htr, ?_⟩
  intro h
  have := (h (Call.FilterByTag [] "y") (by rw [htr]; simp)).1
  simp [Call.isQuery] at this

/-- C5 (amended): a store-load failure does not skip the remaining steps. On the
index, tag, severity and (integer-id) detail routes, when the load returns an
error the query is still made on the collection returned with the error, and
`renderTemplate` still runs, with a view object whose Err is the load error: the
template is resolved and, when resolution succeeds, executed. -/
theorem store_failure_still_renders (env : Env Vuln Tmpl) (e : GoError)
    (he : (getVulns env).1.2 = some e) :
    (∃ obj, obj.Err = some e ∧ renderTemplate env "vulns" obj <:+ IndexHandler env) ∧
    (∀ tag, Call.FilterByTag (getVulns env).1.1 tag ∈ VulnTagHandler env tag ∧
      ∃ obj, obj.Err = some e ∧ renderTemplate env "vulns" obj <:+ VulnTagHandler env tag) ∧
    (∀ sev, Call.FilterBySeverity (getVulns env).1.1 sev ∈ VulnSeverityHandler env sev ∧
      ∃ obj, obj.Err = some e ∧
        renderTemplate env "vulns" obj <:+ VulnSeverityHandler env sev) ∧
    (∀ idStr, (env.Atoi idStr).2 = none →
      Call.GetById (getVulns env).1.1 (env.Atoi idStr).1 ∈ VulnHandler env idStr ∧
      ∃ obj, obj.Err = some e ∧ renderTemplate env "vuln" obj <:+ VulnHandler env idStr) ∧
    (∀ n obj, (∃ c ∈ renderTemplate env n obj, c.isResolve = true) ∧
      ((resolveTemplate env n).1.2 = none →
        Call.ExecuteTemplate (resolveTemplate env n).1.1 "base" obj ∈
          renderTemplate env n obj)) := by
  refine ⟨?_, ?_, ?_, ?_, fun n obj => renderTemplate_resolves env n obj⟩
  · exact ⟨{ Err := (getVulns env).1.2, Vulns := (getVulns env).1.1 }, he,
      List.suffix_append _ _⟩
  · intro tag
    refine ⟨by simp [VulnTagHandler],
      ⟨{ Err := (getVulns env).1.2
         Vulns := env.FilterByTag (getVulns env).1.1 tag
         Title := "Filtered by tag '" ++ tag ++ "'" }, he, ?_⟩⟩
    unfold VulnTagHandler
    exact ⟨(getVulns env).2 ++ [Call.FilterByTag (getVulns env).1.1 tag], by simp⟩
  · intro sev
    refine ⟨by simp [VulnSeverityHandler],
      ⟨{ Err := (getVulns env).1.2
         Vulns := env.FilterBySeverity (getVulns env).1.1 sev
         Title := "Filtered by severity '" ++ sev ++ "'" }, he, ?_⟩⟩
    unfold VulnSeverityHandler
    exact ⟨(getVulns env).2 ++ [Call.FilterBySeverity (getVulns env).1.1 sev], by simp⟩
  · intro idStr hn
    refine ⟨by simp [VulnHandler, hn],
      ⟨{ Err := (getVulns env).1.2
         Vuln := env.GetById (getVulns env).1.1 (env.Atoi idStr).1 }, he, ?_⟩⟩
    unfold VulnHandler
    simp only [hn]
    exact ⟨Call.Atoi idStr :: ((getVulns env).2 ++
      [Call.GetById (getVulns env).1.1 (env.Atoi idStr).1]), by simp⟩

/-- Witness of C5 (amended): the sample environment whose store load fails. -/
theorem store_failure_still_renders_witness :
    Call.FilterByTag [] "y" ∈ VulnTagHandler sampleFailEnv "y" ∧
    Call.GetById [] 2 ∈ VulnHandler sampleFailEnv "2" :=
  ⟨((store_failure_still_renders sampleFailEnv ⟨"vulndb: corrupted asset"⟩ rfl).2.1 "y").1,
    ((store_failure_still_renders sampleFailEnv ⟨"vulndb: corrupted asset"⟩ rfl).2.2.2.1
      "2" rfl).1⟩

end

/-! Section: Template resolver -/

section
variable {Vuln Tmpl : Type}

/-- C6: template resolution never falls back between strategies. With the
load-templates flag false the bundle is read and `ParseFiles` is never called,
whatever the bundle reads and parses return; with the flag true `ParseFiles` is
called and neither the bundle nor a parse of bundle data is, whatever it
returns. In both, a resolution failure yields only the error response (status
500 with the error text) and the template is not executed. -/
theorem renderTemplate_no_fallback (env : Env Vuln Tmpl) (n : String)
    (obj : TemplateObj Vuln) :
    (env.loadTemplates = false →
      Call.Asset (tPath env n) ∈ renderTemplate env n obj ∧
      ∀ t fs, Call.ParseFiles t fs ∉ renderTemplate env n obj) ∧
    (env.loadTemplates = true →
      Call.ParseFiles (env.New n) [tPath env n, tPath env "base"] ∈ renderTemplate env n obj ∧
      (∀ k, Call.Asset k ∉ renderTemplate env n obj) ∧
      ∀ t d, Call.Parse t d ∉ renderTemplate env n obj) ∧
    (∀ e, (resolveTemplate env n).1.2 = some e →
      response (renderTemplate env n obj) = [Call.httpError e.text 500] ∧
      ∀ c ∈ renderTemplate env n obj, c.isExecute = false) := by
  obtain ⟨tail, heq, htail⟩ := renderTemplate_shape env n obj
  have hnot : ∀ c : Call Vuln Tmpl, c.isResolve = true → c ∈ renderTemplate env n obj →
      c ∈ (resolveTemplate env n).2 := by
    intro c hr hc
    rw [heq] at hc
    simp only [List.mem_cons, List.mem_append] at hc
    rcases hc with h | h | h
    · subst h; simp [Call.isResolve] at hr
    · exact h
    · rcases htail c h with h2 | h2 <;> cases c <;>
        simp_all [Call.isResolve, Call.isExecute, Call.isWriter]
  refine ⟨?_, ?_, ?_⟩
  · intro hf
    constructor
    · rw [heq]
      have : Call.Asset (tPath env n) ∈ (resolveTemplate env n).2 := by
        unfold resolveTemplate
        simp only [hf]
        simp only [Bool.false_eq_true, if_false]
        split
        · simp
        · split
          · simp
          · split <;> simp
      simp [this]
    · intro t fs hc
      have h := hnot (Call.ParseFiles t fs) rfl hc
      unfold resolveTemplate at h
      simp only [hf, Bool.false_eq_true, if_false] at h
      split at h
      · simp at h
      · split at h
        · simp at h
        · split at h <;> simp at h
  · intro hf
    have hres : (resolveTemplate env n).2 =
        [Call.ParseFiles (env.New n) [tPath env n, tPath env "base"]] := by
      unfold resolveTemplate
      simp [hf]
    refine ⟨?_, ?_, ?_⟩
    · rw [heq, hres]; simp
    · intro k hc
      have h := hnot (Call.Asset k) rfl hc
      rw [hres] at h
      simp at h
    · intro t d hc
      have h := hnot (Call.Parse t d) rfl hc
      rw [hres] at h
      simp at h
  · intro e he
    constructor
    · rw [renderTemplate_response]; simp [he, StatusInternalServerError]
    · intro c hc
      unfold renderTemplate at hc
      simp only [he] at hc
      simp only [List.mem_cons, List.mem_append, List.mem_singleton] at hc
      rcases hc with h | h | h | h
      · subst h; rfl
      · have := resolveTemplate_calls env n c h
        cases c <;> simp_all [Call.isResolve, Call.isExecute]
      · subst h; rfl
      · cases h

/-- Witness of C6: the sample environment whose bundle lacks every asset
(flag false), and the sample environment reading the filesystem (flag true). -/
theorem renderTemplate_no_fallback_witness :
    (∀ t fs, Call.ParseFiles t fs ∉ renderTemplate sampleNoAssetEnv "vulns" {}) ∧
    response (renderTemplate sampleNoAssetEnv "vulns" {}) =
      [Call.httpError "Asset templates/vulns.html not found" 500] ∧
    (∀ k, Call.Asset k ∉ renderTemplate sampleFsEnv "vulns" {}) :=
  ⟨((renderTemplate_no_fallback sampleNoAssetEnv "vulns" {}).1 rfl).2,
    ((renderTemplate_no_fallback sampleNoAssetEnv "vulns" {}).2.2
      ⟨"Asset templates/vulns.html not found"⟩ rfl).1,
    ((renderTemplate_no_fallback sampleFsEnv "vulns" {}).2.1 rfl).2.1⟩

end

/-! Section: Filtered listing routes -/

section
variable {Vuln Tmpl : Type}

/-- The trace of `getVulns` holds no entry into `renderTemplate`. -/
theorem getVulns_no_render (env : Env Vuln Tmpl) (n : String) (o : TemplateObj Vuln) :
    Call.renderTemplate n o ∉ (getVulns env).2 := by
  rcases getVulns_trace env with h | h <;> simp [h]

/-- C7: for every tag t the tag route renders template "vulns" with a view
object whose Vulns is FilterByTag of the loaded collection and t, whose Title is
"Filtered by tag '" ++ t ++ "'" and whose Vuln is absent; for every severity s
the severity route renders "vulns" with Vulns the FilterBySeverity of the loaded
collection and s, Title "Filtered by severity '" ++ s ++ "'" and Vuln absent.
The path segment enters the title verbatim. -/
theorem filter_routes_view (env : Env Vuln Tmpl) (s : String) :
    (∀ n o, Call.renderTemplate n o ∈ VulnTagHandler env s ↔
      n = "vulns" ∧ o =
        { Vulns := env.FilterByTag (getVulns env).1.1 s
          Vuln := none
          Title := "Filtered by tag '" ++ s ++ "'"
          Err := (getVulns env).1.2 }) ∧
    (∀ n o, Call.renderTemplate n o ∈ VulnSeverityHandler env s ↔
      n = "vulns" ∧ o =
        { Vulns := env.FilterBySeverity (getVulns env).1.1 s
          Vuln := none
          Title := "Filtered by severity '" ++ s ++ "'"
          Err := (getVulns env).1.2 }) := by
  constructor
  · intro n o
    unfold VulnTagHandler
    simp [getVulns_no_render, renderTemplate_entry]
  · intro n o
    unfold VulnSeverityHandler
    simp [getVulns_no_render, renderTemplate_entry]

/-- Evaluation of C7 in the sample environment: tag "y" and severity "high". -/
theorem filter_routes_view_witness :
    Call.renderTemplate "vulns"
        { Vulns := [⟨2, "B", "low", ["y"]⟩], Vuln := none, Title := "Filtered by tag 'y'",
          Err := none } ∈ VulnTagHandler sampleEnv "y" ∧
    Call.renderTemplate "vulns"
        { Vulns := [⟨1, "A", "high", ["x"]⟩], Vuln := none,
          Title := "Filtered by severity 'high'", Err := none } ∈
      VulnSeverityHandler sampleEnv "high" :=
  ⟨((filter_routes_view sampleEnv "y").1 _ _).2 ⟨rfl, rfl⟩,
    ((filter_routes_view sampleEnv "high").2 _ _).2 ⟨rfl, rfl⟩⟩

end

/-! Section: Markdown helper -/

section
variable {Vuln Tmpl : Type}

/-- C8: the markdown helper never fails and is deterministic. For every value
the returned error is nil and the returned HTML is the converter output on the
text of the value, unchanged; two values with the same text give the same
result. -/
theorem markdown_total (env : Env Vuln Tmpl) (v : Stringer) :
    (markdown env v).2 = none ∧
    (markdown env v).1 = env.MarkdownCommon v.String ∧
    ∀ v2 : Stringer, v2.String = v.String → markdown env v2 = markdown env v := by
  refine ⟨rfl, rfl, ?_⟩
  intro v2 h
  simp [markdown, h]

/-- Witness of C8: the text "# Title" in the sample environment. -/
theorem markdown_total_witness :
    markdown sampleEnv ⟨"# Title"⟩ = ("<p># Title</p>\n", none) :=
  (markdown_total sampleEnv ⟨"# Title"⟩).2.2 ⟨"# Title"⟩ rfl

end

/-! Section: One load per request -/

section
variable {Vuln Tmpl : Type}

/-- One `getVulns` call makes one entry and one loader call. -/
theorem getVulns_counts (env : Env Vuln Tmpl) :
    (getVulns env).2.countP Call.isGetVulns = 1 ∧ (getVulns env).2.countP Call.isLoader = 1 := by
  rcases getVulns_trace env with h | h <;> rw [h] <;> exact ⟨rfl, rfl⟩

/-- The trace of `renderTemplate` counts no store call. -/
theorem renderTemplate_counts (env : Env Vuln Tmpl) (n : String) (obj : TemplateObj Vuln) :
    (renderTemplate env n obj).countP Call.isGetVulns = 0 ∧
      (renderTemplate env n obj).countP Call.isLoader = 0 := by
  constructor <;> rw [List.countP_eq_zero] <;> intro c hc
  · simp [(renderTemplate_no_store env n obj c hc).1]
  · simp [(renderTemplate_no_store env n obj c hc).2.1]

/-- C9: the dataset is loaded once per request. The index, tag and severity
handlers, and the detail handler on an integer id, call `getVulns` exactly once
(and a loader exactly once); the collection passed to the query is the one that
call returned; the index handler places it unfiltered in Vulns, with an empty
Title; no handler calls `getVulns` more than once. -/
theorem handlers_load_once (env : Env Vuln Tmpl) :
    ((IndexHandler env).countP Call.isGetVulns = 1 ∧
      (IndexHandler env).countP Call.isLoader = 1 ∧
      ∀ n o, Call.renderTemplate n o ∈ IndexHandler env ↔
        n = "vulns" ∧ o =
          { Vulns := (getVulns env).1.1, Vuln := none, Title := "",
            Err := (getVulns env).1.2 }) ∧
    (∀ tag, (VulnTagHandler env tag).countP Call.isGetVulns = 1 ∧
      (VulnTagHandler env tag).countP Call.isLoader = 1 ∧
      ∀ c ∈ VulnTagHandler env tag, c.isQuery = true →
        c = Call.FilterByTag (getVulns env).1.1 tag) ∧
    (∀ sev, (VulnSeverityHandler env sev).countP Call.isGetVulns = 1 ∧
      (VulnSeverityHandler env sev).countP Call.isLoader = 1 ∧
      ∀ c ∈ VulnSeverityHandler env sev, c.isQuery = true →
        c = Call.FilterBySeverity (getVulns env).1.1 sev) ∧
    (∀ idStr, (env.Atoi idStr).2 = none →
      (VulnHandler env idStr).countP Call.isGetVulns = 1 ∧
      (VulnHandler env idStr).countP Call.isLoader = 1 ∧
      ∀ c ∈ VulnHandler env idStr, c.isQuery = true →
        c = Call.GetById (getVulns env).1.1 (env.Atoi idStr).1) ∧
    (∀ idStr, (VulnHandler env idStr).countP Call.isGetVulns ≤ 1) := by
  have hq : ∀ c ∈ (getVulns env).2, c.isQuery = false := by
    intro c hc
    rcases getVulns_trace env with h | h <;> rw [h] at hc <;> simp at hc <;>
      rcases hc with h2 | h2 <;> subst h2 <;> rfl
  have hint : ∀ idStr, (env.Atoi idStr).2 = none →
      VulnHandler env idStr = Call.Atoi idStr :: ((getVulns env).2 ++
        (Call.GetById (getVulns env).1.1 (env.Atoi idStr).1 ::
          renderTemplate env "vuln"
            { Err := (getVulns env).1.2
              Vuln := env.GetById (getVulns env).1.1 (env.Atoi idStr).1 })) := by
    intro idStr hn
    simp [VulnHandler, hn]
  refine ⟨⟨?_, ?_, ?_⟩, ?_, ?_, ?_, ?_⟩
  · simp [IndexHandler, List.countP_append, getVulns_counts, renderTemplate_counts]
  · simp [IndexHandler, List.countP_append, getVulns_counts, renderTemplate_counts]
  · intro n o
    unfold IndexHandler
    simp [getVulns_no_render, renderTemplate_entry]
  · intro tag
    refine ⟨?_, ?_, ?_⟩
    · simp [VulnTagHandler, List.countP_append, List.countP_cons, getVulns_counts,
        renderTemplate_counts, Call.isGetVulns]
    · simp [VulnTagHandler, List.countP_append, List.countP_cons, getVulns_counts,
        renderTemplate_counts, Call.isLoader]
    · intro c hc hqc
      unfold VulnTagHandler at hc
      simp only [List.mem_cons, List.mem_append] at hc
      rcases hc with h | h | h
      · rw [hq c h] at hqc; cases hqc
      · exact h
      · rw [(renderTemplate_no_store env _ _ c h).2.2] at hqc; cases hqc
  · intro sev
    refine ⟨?_, ?_, ?_⟩
    · simp [VulnSeverityHandler, List.countP_append, List.countP_cons, getVulns_counts,
        renderTemplate_counts, Call.isGetVulns]
    · simp [VulnSeverityHandler, List.countP_append, List.countP_cons, getVulns_counts,
        renderTemplate_counts, Call.isLoader]
    · intro c hc hqc
      unfold VulnSeverityHandler at hc
      simp only [List.mem_cons, List.mem_append] at hc
      rcases hc with h | h | h
      · rw [hq c h] at hqc; cases hqc
      · exact h
      · rw [(renderTemplate_no_store env _ _ c h).2.2] at hqc; cases hqc
  · intro idStr hn
    rw [hint idStr hn]
    refine ⟨?_, ?_, ?_⟩
    · simp [List.countP_append, List.countP_cons, getVulns_counts,
        renderTemplate_counts, Call.isGetVulns]
    · simp [List.countP_append, List.countP_cons, getVulns_counts,
        renderTemplate_counts, Call.isLoader]
    · intro c hc hqc
      simp only [List.mem_cons, List.mem_append] at hc
      rcases hc with h | h | h | h
      · subst h; cases hqc
      · rw [hq c h] at hqc; cases hqc
      · exact h
      · rw [(renderTemplate_no_store env _ _ c h).2.2] at hqc; cases hqc
  · intro idStr
    cases hn : (env.Atoi idStr).2 with
    | none =>
      rw [hint idStr hn]
      simp [List.countP_append, List.countP_cons, getVulns_counts,
        renderTemplate_counts, Call.isGetVulns]
    | some e =>
      have : VulnHandler env idStr = Call.Atoi idStr ::
          renderTemplate env "vuln" { Err := some e } := by
        simp [VulnHandler, hn]
      rw [this]
      simp [List.countP_cons, renderTemplate_counts, Call.isGetVulns]

/-- Witness of C9: the detail route on the id segment "2" in the sample
environment. -/
theorem handlers_load_once_witness :
    (VulnHandler sampleEnv "2").countP Call.isGetVulns = 1 ∧
    (VulnHandler sampleEnv "2").countP Call.isLoader = 1 :=
  ⟨((handlers_load_once sampleEnv).2.2.2.1 "2" rfl).1,
    ((handlers_load_once sampleEnv).2.2.2.1 "2" rfl).2.1⟩

end

/-! Section: Template paths -/

section
variable {Vuln Tmpl : Type}

/-- The bundle keys of a concatenated trace. -/
theorem assetKeys_append (xs ys : List (Call Vuln Tmpl)) :
    assetKeys (xs ++ ys) = assetKeys xs ++ assetKeys ys := by
  induction xs with
  | nil => rfl
  | cons c cs ih => cases c <;> simp [assetKeys, ih]

/-- The files read by a concatenated trace. -/
theorem filesRead_append (xs ys : List (Call Vuln Tmpl)) :
    filesRead (xs ++ ys) = filesRead xs ++ filesRead ys := by
  induction xs with
  | nil => rfl
  | cons c cs ih => cases c <;> simp [filesRead, ih]

/-- A trace of executions and writer calls requests no key and reads no file. -/
theorem tail_reads_nothing (tail : List (Call Vuln Tmpl))
    (h : ∀ c ∈ tail, c.isExecute = true ∨ c.isWriter = true) :
    assetKeys tail = [] ∧ filesRead tail = [] := by
  induction tail with
  | nil => exact ⟨rfl, rfl⟩
  | cons c cs ih =>
    have hc := h c (List.mem_cons_self _ _)
    have ih2 := ih (fun d hd => h d (List.mem_cons_of_mem _ hd))
    cases c <;> simp_all [assetKeys, filesRead, Call.isExecute, Call.isWriter]

/-- C10: both template strategies use the same path convention and load the
base layout besides the requested template. For every template name n the
filesystem strategy hands exactly the two files tPath n and tPath "base" to be
read (and requests no bundle key); the embedded strategy, when no resolution
step fails, requests exactly the two bundle keys tPath n and tPath "base", in
that order (and reads no file); tPath x is the template directory joined with
x ++ ".html". -/
theorem template_paths (env : Env Vuln Tmpl) (n : String) (obj : TemplateObj Vuln) :
    (∀ x, tPath env x = env.pathJoin env.templates (x ++ ".html")) ∧
    (env.loadTemplates = true →
      filesRead (renderTemplate env n obj) = [tPath env n, tPath env "base"] ∧
      assetKeys (renderTemplate env n obj) = []) ∧
    (env.loadTemplates = false → (resolveTemplate env n).1.2 = none →
      assetKeys (renderTemplate env n obj) = [tPath env n, tPath env "base"] ∧
      filesRead (renderTemplate env n obj) = []) := by
  obtain ⟨tail, heq, htail⟩ := renderTemplate_shape env n obj
  obtain ⟨ha, hf⟩ := tail_reads_nothing tail htail
  refine ⟨fun x => rfl, ?_, ?_⟩
  · intro hflag
    have hres : (resolveTemplate env n).2 =
        [Call.ParseFiles (env.New n) [tPath env n, tPath env "base"]] := by
      unfold resolveTemplate
      simp [hflag]
    rw [heq, hres]
    simp [filesRead, assetKeys, ha, hf]
  · intro hflag hok
    have hres : (resolveTemplate env n).2 =
        [Call.Asset (tPath env n),
          Call.Parse (env.New n) (env.Asset (tPath env n)).1,
          Call.Asset (tPath env "base"),
          Call.Parse (env.Parse (env.New n) (env.Asset (tPath env n)).1).1
            (env.Asset (tPath env "base")).1] := by
      unfold resolveTemplate at hok ⊢
      simp only [hflag, Bool.false_eq_true, if_false] at hok ⊢
      split at hok
      · cases hok
      · split at hok
        · cases hok
        · split at hok
          · cases hok
          · simp_all
    rw [heq, hres]
    simp [filesRead, assetKeys, ha, hf]

/-- Witness of C10: template "vulns" in the sample environment reading the
filesystem, and in the one reading the bundle. -/
theorem template_paths_witness :
    filesRead (renderTemplate sampleFsEnv "vulns" {}) =
      ["templates/vulns.html", "templates/base.html"] ∧
    assetKeys (renderTemplate sampleEnv "vulns" {}) =
      ["templates/vulns.html", "templates/base.html"] :=
  ⟨((template_paths sampleFsEnv "vulns" {}).2.1 rfl).1,
    ((template_paths sampleEnv "vulns" {}).2.2 rfl rfl).1⟩

end

end Vulnweb
